import Mathlib

/-!
Shallow embedding of the VIFM portal guard, session and notification logic.

Sources embedded here:
- supabase.js: Auth.getSession, Auth.getCurrentUser, Database.insert,
  RouteGuard.requireAuth, RouteGuard.requireRole
- route-guards.js: VIFMRouteGuards.requireAuthentication, requireRole,
  redirectToLogin, redirectToMainMenu, executePreRenderSecurity
- server.js: escapeHtml, sendActivityNotification (email body composition),
  POST /api/notify-activity, POST /api/supabase-webhook

Side effects (navigation, sessionStorage writes, alert dialogs, render
suspension, the background email hand-off) are modelled as explicit fields of
result records. External services (the hosted auth/database client and the
mail transport) appear as environment inputs, mirroring what the code reads
from them.
-/

set_option maxRecDepth 8192

namespace VIFM

/-- JS truthiness of a possibly null/undefined string value: null, undefined
and the empty string are falsy. -/
def jsTruthy : Option String → Bool
  | none => false
  | some s => s ≠ ""

/-- JS strict equality of a string against a possibly null/undefined string
value: a string is never strictly equal to null or undefined. -/
def jsEqOpt (s : String) : Option String → Bool
  | none => false
  | some t => s = t

/-- JS template interpolation of a possibly null value into a string. -/
def jsToString : Option String → String
  | none => "null"
  | some s => s

/-- JS logical-or of two optional string values, as used in field fallbacks. -/
def jsOrOpt (a b : Option String) : Option String :=
  if jsTruthy a then a else b

/-- JS logical-or against a string default, as in the email template slots. -/
def jsOrD (v : Option String) (dflt : String) : String :=
  if jsTruthy v then jsToString v else dflt

/-- A row of the profiles table (id, email, full_name, role). -/
structure Profile where
  id : String
  email : String
  full_name : String
  role : String
deriving DecidableEq, Repr

/-- The auth user object carried inside a session. -/
structure User where
  id : String
  email : String
deriving DecidableEq, Repr

/-- The session value handled by Auth.getSession: either the live client
session or the parsed vifm_session blob.  The expires_at field is a numeric
timestamp; Auth.getSession compares it as a Date value, while
route-guards.js requireAuthentication multiplies it by 1000 (seconds). -/
structure Session where
  user : Option User
  profile : Option Profile
  expires_at : Option Nat
deriving DecidableEq, Repr

/-- Environment read by Auth.getSession: the live client session (none when
the client is unavailable or holds no session), the parsed vifm_session
blob from sessionStorage, and the current time as a Date value. -/
structure GetSessionEnv where
  clientSession : Option Session
  stored : Option Session
  now : Nat
deriving DecidableEq, Repr

/-- Result of Auth.getSession: the returned session and the vifm_session
blob as it stands after the call (expiry removes it). -/
structure GetSessionResult where
  session : Option Session
  storedAfter : Option Session
deriving DecidableEq, Repr

/-- Auth.getSession (supabase.js 152-180): try the live client session
first; otherwise fall back to the stored vifm_session blob, removing it and
returning null when its expires_at is at or before now. -/
def Auth.getSession (env : GetSessionEnv) : GetSessionResult :=
  match env.clientSession with
  | some s => ⟨some s, env.stored⟩
  | none =>
    match env.stored with
    | none => ⟨none, none⟩
    | some s =>
      match s.expires_at with
      | some e =>
        if e ≤ env.now then ⟨none, none⟩
        else ⟨some s, env.stored⟩
      | none => ⟨some s, env.stored⟩

/-- Outcome of the profiles-by-email lookup made by Auth.getCurrentUser:
found a row without error, returned an error or no row, or threw. -/
inductive LookupOutcome
  | found (p : Profile)
  | notFound
  | throws
deriving DecidableEq, Repr

/-- Environment read by Auth.getCurrentUser: the getSession environment, the
availability of the database client, the outcome of the profiles lookup, and
the parsed vifm_profile blob (sessionStorage falling back to localStorage). -/
structure GetCurrentUserEnv where
  gs : GetSessionEnv
  clientAvailable : Bool
  dbLookup : LookupOutcome
  storedProfile : Option Profile
deriving DecidableEq, Repr

/-- The user/profile pair returned by Auth.getCurrentUser. -/
structure CurrentUser where
  user : Option User
  profile : Option Profile
deriving DecidableEq, Repr

/-- Result of Auth.getCurrentUser, also recording whether the database
lookup was attempted. -/
structure GetCurrentUserResult where
  cu : CurrentUser
  lookupAttempted : Bool
deriving DecidableEq, Repr

/-- Auth.getCurrentUser (supabase.js 183-216): null-null when the session
has no user; else the profile embedded in the session, else the database
lookup by email, else the stored vifm_profile blob; a lookup that throws is
caught and degrades to a null profile. -/
def Auth.getCurrentUser (env : GetCurrentUserEnv) : GetCurrentUserResult :=
  match (Auth.getSession env.gs).session with
  | none => ⟨⟨none, none⟩, false⟩
  | some s =>
    match s.user with
    | none => ⟨⟨none, none⟩, false⟩
    | some u =>
      match s.profile with
      | some p => ⟨⟨some u, some p⟩, false⟩
      | none =>
        if env.clientAvailable then
          match env.dbLookup with
          | .found p => ⟨⟨some u, some p⟩, true⟩
          | .notFound => ⟨⟨some u, env.storedProfile⟩, true⟩
          | .throws => ⟨⟨some u, none⟩, true⟩
        else ⟨⟨some u, env.storedProfile⟩, false⟩

/-- The two navigation primitives the code uses.  window.location.replace
replaces the current history entry; assigning window.location.href pushes a
new entry, so back-navigation can return to the page left behind. -/
inductive NavKind
  | replace
  | assign
deriving DecidableEq, Repr

/-- A navigation side effect: how and where the page is sent. -/
structure Navigation where
  kind : NavKind
  target : String
deriving DecidableEq, Repr

/-- Observable side effects of one guard invocation: the navigation issued,
the login_message written to sessionStorage, the alert dialog shown, whether
rendering was stopped or resumed, and whether signOut was called. -/
structure Effects where
  nav : Option Navigation := none
  loginMessage : Option String := none
  alertMessage : Option String := none
  renderingStopped : Bool := false
  renderingResumed : Bool := false
  signedOut : Bool := false
deriving DecidableEq, Repr

/-- The empty effect set: the invocation performed no side effect. -/
def noEff : Effects := {}

/-- A guard call that returns a boolean together with its side effects. -/
structure GuardBoolRes where
  value : Bool
  eff : Effects
deriving DecidableEq, Repr

/-- RouteGuard.requireAuth (supabase.js 364-371): no session user means an
href assignment to /login.html and false; otherwise true. -/
def RouteGuard.requireAuth (session : Option Session) : GuardBoolRes :=
  match session with
  | none => ⟨false, { nav := some ⟨.assign, "/login.html"⟩ }⟩
  | some s =>
    match s.user with
    | none => ⟨false, { nav := some ⟨.assign, "/login.html"⟩ }⟩
    | some _ => ⟨true, noEff⟩

/-- RouteGuard.requireRole (supabase.js 374-393): null user or null profile
sends the page to /login.html; a role that is strictly equal to neither
requiredRole nor admin sends it to /vifm-main-menu.html; both navigations
are href assignments and nothing is persisted for the destination page. -/
def RouteGuard.requireRole (cu : CurrentUser) (requiredRole : Option String) : GuardBoolRes :=
  match cu.user with
  | none => ⟨false, { nav := some ⟨.assign, "/login.html"⟩ }⟩
  | some _ =>
    match cu.profile with
    | none => ⟨false, { nav := some ⟨.assign, "/login.html"⟩ }⟩
    | some p =>
      if !(jsEqOpt p.role requiredRole) && !(p.role == "admin") then
        ⟨false, { nav := some ⟨.assign, "/vifm-main-menu.html"⟩ }⟩
      else ⟨true, noEff⟩

/-- VIFMRouteGuards.redirectToLogin (route-guards.js 103-116): stop
rendering, store the message under login_message when truthy, and replace
the location with login.html. -/
def VIFMRouteGuards.redirectToLogin (message : Option String) : Effects :=
  { nav := some ⟨.replace, "login.html"⟩,
    loginMessage := if jsTruthy message then message else none,
    renderingStopped := true }

/-- VIFMRouteGuards.redirectToMainMenu (route-guards.js 119-132): stop
rendering, show the message in an alert when truthy, and replace the
location with vifm-main-menu.html. -/
def VIFMRouteGuards.redirectToMainMenu (message : Option String) : Effects :=
  { nav := some ⟨.replace, "vifm-main-menu.html"⟩,
    alertMessage := if jsTruthy message then message else none,
    renderingStopped := true }

/-- The object returned by a successful requireAuthentication call. -/
structure AuthTriple where
  session : Session
  user : Option User
  profile : Profile
deriving DecidableEq, Repr

/-- Result of requireAuthentication: the triple on success (none encodes the
false return) together with the side effects performed. -/
structure AuthRes where
  result : Option AuthTriple
  eff : Effects
deriving DecidableEq, Repr

/-- Environment of a route-guards.js guard call: availability of the
window.VIFMSupabase.Auth object, the Auth environment, and Date.now(). -/
structure GuardEnv where
  authAvailable : Bool
  cuEnv : GetCurrentUserEnv
  now : Nat
deriving DecidableEq, Repr

/-- VIFMRouteGuards.requireAuthentication (route-guards.js 28-68): missing
auth system throws into the catch (login redirect); no session, an expired
session (expires_at read in seconds, times 1000) or a missing profile each
redirect to login with their message; otherwise the triple is returned.  An
absent expires_at yields NaN in the JS comparison, which is not expired. -/
def VIFMRouteGuards.requireAuthentication (env : GuardEnv) : AuthRes :=
  if !env.authAvailable then
    ⟨none, VIFMRouteGuards.redirectToLogin (some "Authentication error - please log in")⟩
  else
    match (Auth.getSession env.cuEnv.gs).session with
    | none => ⟨none, VIFMRouteGuards.redirectToLogin (some "Authentication required")⟩
    | some s =>
      let proceed : AuthRes :=
        match (Auth.getCurrentUser env.cuEnv).cu with
        | ⟨cuUser, cuProfile⟩ =>
          match cuProfile with
          | none => ⟨none, VIFMRouteGuards.redirectToLogin (some "Profile not found")⟩
          | some p => ⟨some ⟨s, cuUser, p⟩, noEff⟩
      match s.expires_at with
      | some e =>
        if e * 1000 ≤ env.now then
          ⟨none, { VIFMRouteGuards.redirectToLogin
                     (some "Session expired - please log in again") with signedOut := true }⟩
        else proceed
      | none => proceed

/-- VIFMRouteGuards.requireRole (route-guards.js 71-100): a failed
authentication propagates its effects; an admin role or a role strictly
equal to requiredRole grants access; anything else redirects to the main
menu with an access-denied alert. -/
def VIFMRouteGuards.requireRole (env : GuardEnv) (requiredRole : Option String) : GuardBoolRes :=
  match VIFMRouteGuards.requireAuthentication env with
  | ⟨none, eff⟩ => ⟨false, eff⟩
  | ⟨some t, _⟩ =>
    if t.profile.role == "admin" then ⟨true, noEff⟩
    else if jsEqOpt t.profile.role requiredRole then ⟨true, noEff⟩
    else
      ⟨false, VIFMRouteGuards.redirectToMainMenu
        (some ("Access denied. This page requires " ++ jsToString requiredRole ++ " access."))⟩

/-- The fixed public-page allow-list (route-guards.js 9). -/
def VIFMRouteGuards.PUBLIC_PAGES : List String := ["login.html", "index.html"]

/-- Characterwise split on a separator: the semantics of the JS string
split with a one-character separator. -/
def splitCl (sep : Char) : List Char → List (List Char)
  | [] => [[]]
  | c :: cs =>
    match splitCl sep cs with
    | [] => if c = sep then [[], []] else [[c]]
    | h :: t => if c = sep then [] :: h :: t else (c :: h) :: t

/-- window.location.pathname.split with pop and the index.html default
(route-guards.js 188): the last path segment, or index.html when empty. -/
def currentPageOf (pathname : String) : String :=
  let parts := (splitCl '/' pathname.data).map String.mk
  let last := parts.getLastD ""
  if last = "" then "index.html" else last

/-- Environment of executePreRenderSecurity: whether window.env and
window.VIFMSupabase became available within the polling timeout, the
location pathname, whether the getCurrentUser call itself throws, and the
Auth environment. -/
structure PreRenderEnv where
  envLoaded : Bool
  supabaseLoaded : Bool
  pathname : String
  authCallThrows : Bool
  cuEnv : GetCurrentUserEnv
deriving DecidableEq, Repr

/-- Result of executePreRenderSecurity: the returned boolean, the side
effects, and the persistent guard state after the call (getSession may have
removed the stored session blob). -/
structure ExecRes where
  value : Bool
  eff : Effects
  stateAfter : PreRenderEnv
deriving DecidableEq, Repr

/-- Effects of the allow path: resumePageRendering only. -/
def resumeEff : Effects := { renderingResumed := true }

/-- Replace the stored session blob inside a PreRenderEnv. -/
def PreRenderEnv.withStored (env : PreRenderEnv) (st : Option Session) : PreRenderEnv :=
  { env with cuEnv := { env.cuEnv with gs := { env.cuEnv.gs with stored := st } } }

/-- VIFMRouteGuards.executePreRenderSecurity (route-guards.js 172-229):
missing dependencies after the polling timeout throw into the catch, which
redirects to login with System error; public pages resume rendering and
return true; a throwing auth call is likewise caught as System error; a
missing user or profile redirects to login; a truthy requiredRole grants
access only to that role or admin, alerting and replacing to the main menu
otherwise; a falsy requiredRole skips the role check. -/
def VIFMRouteGuards.executePreRenderSecurity
    (env : PreRenderEnv) (requiredRole : Option String) : ExecRes :=
  if !(env.envLoaded && env.supabaseLoaded) then
    ⟨false, VIFMRouteGuards.redirectToLogin (some "System error"), env⟩
  else if VIFMRouteGuards.PUBLIC_PAGES.contains (currentPageOf env.pathname) then
    ⟨true, resumeEff, env⟩
  else if env.authCallThrows then
    ⟨false, VIFMRouteGuards.redirectToLogin (some "System error"), env⟩
  else
    let env' := env.withStored (Auth.getSession env.cuEnv.gs).storedAfter
    match (Auth.getCurrentUser env.cuEnv).cu with
    | ⟨cuUser, cuProfile⟩ =>
      match cuUser, cuProfile with
      | some _, some p =>
        match requiredRole with
        | some r =>
          if r = "" then ⟨true, resumeEff, env'⟩
          else if p.role == r || p.role == "admin" then ⟨true, resumeEff, env'⟩
          else
            ⟨false,
             { VIFMRouteGuards.redirectToMainMenu none with
                 alertMessage := some ("Access denied. This page requires "
                   ++ r.toUpper ++ " access.") },
             env'⟩
        | none => ⟨true, resumeEff, env'⟩
      | _, _ =>
        ⟨false, VIFMRouteGuards.redirectToLogin (some "Authentication required"), env'⟩

/-- A payload handed to Database.insert: the created_by field, which the
function may set, plus the remaining columns as opaque key/value pairs. -/
structure InsertPayload where
  created_by : Option String := none
  fields : List (String × String) := []
deriving DecidableEq, Repr

/-- Result of Database.insert: the error message thrown, if any, and the row
actually handed to the client insert call. -/
structure InsertRes where
  thrown : Option String
  sentRow : Option InsertPayload
deriving DecidableEq, Repr

/-- Database.insert (supabase.js 276-297): throws when the client is
unavailable or the session has no user, both before any row is sent; for
tables other than profiles a falsy created_by is overwritten with the
getCurrentUser user id before the insert. -/
def Database.insert (env : GetCurrentUserEnv) (table : String) (data : InsertPayload) : InsertRes :=
  if !env.clientAvailable then ⟨some "Supabase client not available", none⟩
  else
    match (Auth.getSession env.gs).session with
    | none => ⟨some "User not authenticated", none⟩
    | some s =>
      match s.user with
      | none => ⟨some "User not authenticated", none⟩
      | some _ =>
        if !(jsTruthy data.created_by) && !(table == "profiles") then
          match (Auth.getCurrentUser env).cu.user with
          | some u => ⟨none, some { data with created_by := some u.id }⟩
          | none => ⟨some "TypeError: user is null", none⟩
        else ⟨none, some data⟩

/-- The fields of the activity object used by server.js (each possibly
absent, mirroring a JS object whose properties may be undefined). -/
structure ActivityData where
  date : Option String := none
  company : Option String := none
  contact : Option String := none
  module : Option String := none
  stage : Option String := none
  notes : Option String := none
  next_actions : Option String := none
deriving DecidableEq, Repr

/-- One pass of a JS global single-character regex replace over the
characters of a string. -/
def replaceAllChar (pat : Char) (rep : List Char) : List Char → List Char
  | [] => []
  | c :: cs => if c = pat then rep ++ replaceAllChar pat rep cs else c :: replaceAllChar pat rep cs

/-- The double-quote character, written by code to keep it out of literals. -/
def quoteChar : Char := Char.ofNat 34

/-- The apostrophe character, written by code to keep it out of literals. -/
def aposChar : Char := Char.ofNat 39

/-- The replacement chain of escapeHtml (server.js 162-171) on a string:
ampersand first, then the angle brackets, then the two quote characters. -/
def escapeHtmlStr (s : String) : String :=
  String.mk (replaceAllChar aposChar "&#039;".data
    (replaceAllChar quoteChar "&quot;".data
      (replaceAllChar '>' "&gt;".data
        (replaceAllChar '<' "&lt;".data
          (replaceAllChar '&' "&amp;".data s.data)))))

/-- escapeHtml (server.js 162-171): a falsy input returns the empty string,
anything else goes through the replacement chain. -/
def escapeHtml (text : Option String) : String :=
  if jsTruthy text then escapeHtmlStr (jsToString text) else ""

/-- Whether pat is a prefix of the character list. -/
def isPrefixCl : List Char → List Char → Bool
  | [], _ => true
  | _ :: _, [] => false
  | p :: ps, c :: cs => p == c && isPrefixCl ps cs

/-- Whether pat occurs as a contiguous run inside the character list. -/
def containsCl (pat : List Char) : List Char → Bool
  | [] => pat.isEmpty
  | c :: cs => isPrefixCl pat (c :: cs) || containsCl pat cs

/-- Substring occurrence test on strings, used to state what the composed
email body does and does not contain. -/
def containsSub (s pat : String) : Bool := containsCl pat.data s.data

/-- The optional Stage row of the email template (server.js 100-105). -/
def stageRow (d : ActivityData) : String :=
  if jsTruthy d.stage then
    "\n<tr>\n<td style=\"padding: 8px 0; font-weight: 600; color: #64748b;\">Stage:</td>\n<td style=\"padding: 8px 0;\">"
      ++ jsToString d.stage ++ "</td>\n</tr>\n"
  else ""

/-- The optional Notes row of the email template (server.js 106-111). -/
def notesRow (d : ActivityData) : String :=
  if jsTruthy d.notes then
    "\n<tr>\n<td style=\"padding: 8px 0; font-weight: 600; color: #64748b; vertical-align: top;\">Notes:</td>\n<td style=\"padding: 8px 0;\">"
      ++ jsToString d.notes ++ "</td>\n</tr>\n"
  else ""

/-- The optional Next Actions row of the email template (server.js 112-117). -/
def nextActionsRow (d : ActivityData) : String :=
  if jsTruthy d.next_actions then
    "\n<tr>\n<td style=\"padding: 8px 0; font-weight: 600; color: #64748b; vertical-align: top;\">Next Actions:</td>\n<td style=\"padding: 8px 0;\">"
      ++ jsToString d.next_actions ++ "</td>\n</tr>\n"
  else ""

/-- The HTML email body composed by sendActivityNotification (server.js
74-126), with the activity fields interpolated into the table cells; the
indentation whitespace of the JS template literal is elided. -/
def emailBody (d : ActivityData) : String :=
  "<html>\n<body style=\"font-family: \x27Open Sans\x27, Arial, sans-serif; color: #111232;\">\n"
    ++ "<div style=\"max-width: 600px; margin: 0 auto; padding: 20px;\">\n"
    ++ "<div style=\"background: linear-gradient(135deg, #5391D5 0%, #010131 100%); padding: 20px; border-radius: 8px 8px 0 0;\">\n"
    ++ "<h2 style=\"color: white; margin: 0;\">New Activity Registered</h2>\n</div>\n"
    ++ "<div style=\"background: #ffffff; padding: 20px; border: 1px solid #e2e8f0; border-radius: 0 0 8px 8px;\">\n"
    ++ "<h3 style=\"color: #010131; margin-top: 0;\">Activity Details</h3>\n"
    ++ "<table style=\"width: 100%; border-collapse: collapse;\">\n"
    ++ "<tr>\n<td style=\"padding: 8px 0; font-weight: 600; color: #64748b; width: 150px;\">Date:</td>\n<td style=\"padding: 8px 0;\">"
    ++ jsOrD d.date "N/A" ++ "</td>\n</tr>\n"
    ++ "<tr>\n<td style=\"padding: 8px 0; font-weight: 600; color: #64748b;\">Company:</td>\n<td style=\"padding: 8px 0;\">"
    ++ jsOrD d.company "N/A" ++ "</td>\n</tr>\n"
    ++ "<tr>\n<td style=\"padding: 8px 0; font-weight: 600; color: #64748b;\">Contact:</td>\n<td style=\"padding: 8px 0;\">"
    ++ jsOrD d.contact "N/A" ++ "</td>\n</tr>\n"
    ++ "<tr>\n<td style=\"padding: 8px 0; font-weight: 600; color: #64748b;\">Module:</td>\n<td style=\"padding: 8px 0;\">"
    ++ jsOrD d.module "N/A" ++ "</td>\n</tr>\n"
    ++ stageRow d ++ notesRow d ++ nextActionsRow d
    ++ "</table>\n"
    ++ "<div style=\"margin-top: 20px; padding-top: 20px; border-top: 1px solid #e2e8f0; color: #64748b; font-size: 12px;\">\n"
    ++ "<p style=\"margin: 0;\">This is an automated notification from the VIFM Portal.</p>\n"
    ++ "</div>\n</div>\n</div>\n</body>\n</html>\n"

/-- The subject line composed by sendActivityNotification (server.js 129). -/
def emailSubject (d : ActivityData) : String :=
  "New Activity: " ++ jsOrD d.company "Unknown Company"

/-- The message handed to the mail transport. -/
structure MailMessage where
  subject : String
  htmlBody : String
  recipient : String
deriving DecidableEq, Repr

/-- sendActivityNotification (server.js 69-154): composes the subject and
HTML body from the activity data and hands the message to the transport. -/
def sendActivityNotification (d : ActivityData) : MailMessage :=
  ⟨emailSubject d, emailBody d, "asadeq@viftraining.com"⟩

/-- The sanitized copy built by the notify-activity handler (server.js
216-224): escapeHtml applied to every field. -/
def sanitizeActivityData (d : ActivityData) : ActivityData :=
  { date := some (escapeHtml d.date),
    company := some (escapeHtml d.company),
    contact := some (escapeHtml d.contact),
    module := some (escapeHtml d.module),
    stage := some (escapeHtml d.stage),
    notes := some (escapeHtml d.notes),
    next_actions := some (escapeHtml d.next_actions) }

/-- Environment of one POST /api/notify-activity request: the verifyAuth
result (none when the bearer token fails verification), the request body
(none models a falsy body), and the outcome of the background delivery. -/
structure NotifyEnv where
  authUser : Option User
  body : Option ActivityData
  deliveryOk : Bool
deriving DecidableEq, Repr

/-- Result of the notify-activity handler: the HTTP status and the data
handed to the background sendActivityNotification call (none when no email
was queued). -/
structure NotifyRes where
  status : Nat
  queued : Option ActivityData
deriving DecidableEq, Repr

/-- POST /api/notify-activity (server.js 199-238): 401 when verifyAuth
yields no user, 400 when the body or its company field is falsy, otherwise
the sanitized data is queued in the background (the response does not await
delivery) and the handler responds 200. -/
def postNotifyActivity (env : NotifyEnv) : NotifyRes :=
  match env.authUser with
  | none => ⟨401, none⟩
  | some _ =>
    match env.body with
    | none => ⟨400, none⟩
    | some d =>
      if jsTruthy d.company then ⟨200, some (sanitizeActivityData d)⟩
      else ⟨400, none⟩

/-- The record carried by a Supabase webhook payload (server.js 249-258). -/
structure WebhookRecord where
  date : Option String := none
  created_at : Option String := none
  company_name : Option String := none
  company : Option String := none
  contact_person : Option String := none
  contact : Option String := none
  stage : Option String := none
  bd_notes : Option String := none
  consultant_notes : Option String := none
  notes : Option String := none
  next_actions : Option String := none
deriving DecidableEq, Repr

/-- The webhook payload shape consumed by POST /api/supabase-webhook. -/
structure WebhookPayload where
  type : Option String := none
  table : Option String := none
  record : Option WebhookRecord := none
deriving DecidableEq, Repr

/-- The activityData object the webhook handler builds from the raw record
fields (server.js 250-258), with no escaping applied. -/
def webhookActivityData (table : Option String) (r : WebhookRecord) : ActivityData :=
  { date := jsOrOpt r.date r.created_at,
    company := jsOrOpt r.company_name r.company,
    contact := jsOrOpt r.contact_person r.contact,
    module := some (if jsEqOpt "bd_opportunities" table then "Business Development"
                    else "Consultant Opportunities"),
    stage := r.stage,
    notes := jsOrOpt (jsOrOpt r.bd_notes r.consultant_notes) r.notes,
    next_actions := r.next_actions }

/-- Result of the webhook handler: the HTTP status and the data passed to
sendActivityNotification, if any. -/
structure WebhookRes where
  status : Nat
  emailData : Option ActivityData
deriving DecidableEq, Repr

/-- POST /api/supabase-webhook (server.js 241-271): an INSERT payload with a
record sends a notification composed from the raw record fields; the
handler always responds 200. -/
def postSupabaseWebhook (p : WebhookPayload) : WebhookRes :=
  if jsEqOpt "INSERT" p.type then
    match p.record with
    | some r => ⟨200, some (webhookActivityData p.table r)⟩
    | none => ⟨200, none⟩
  else ⟨200, none⟩

/-- A concrete auth user for witnesses. -/
def demoUser : User := ⟨"u-1", "demo@vifm.ae"⟩

/-- A concrete consultant profile for witnesses. -/
def consultantProfile : Profile := ⟨"p-1", "demo@vifm.ae", "Demo Consultant", "consultant"⟩

/-- A concrete getCurrentUser result holding a consultant. -/
def consultantCU : CurrentUser := ⟨some demoUser, some consultantProfile⟩

/-- A live session carrying the consultant profile; expires_at is read in
seconds by the route guard, so 1 means 1000 as a millisecond deadline. -/
def liveSession : Session := ⟨some demoUser, some consultantProfile, some 1⟩

/-- A getSession environment in which the live client session is present. -/
def demoGsEnv : GetSessionEnv := ⟨some liveSession, none, 0⟩

/-- A getCurrentUser environment built on the live session. -/
def demoCuEnv : GetCurrentUserEnv := ⟨demoGsEnv, true, .notFound, none⟩

/-- A route-guards.js environment with the auth system available. -/
def demoGuardEnv : GuardEnv := ⟨true, demoCuEnv, 0⟩

/-- A pre-render environment on a protected page with dependencies loaded. -/
def demoPreEnv : PreRenderEnv := ⟨true, true, "/bd-module.html", false, demoCuEnv⟩

/-- A pre-render environment whose dependency polling timed out. -/
def failingPreEnv : PreRenderEnv := ⟨false, true, "/bd-module.html", false, demoCuEnv⟩

/-- A guard environment whose auth system never became available. -/
def noAuthGuardEnv : GuardEnv := ⟨false, demoCuEnv, 0⟩

/-- An activity whose company field carries a markup injection attempt. -/
def dScript : ActivityData := { company := some "<script>x</script>" }

/-- A webhook record whose company field carries a markup injection attempt. -/
def scriptRecord : WebhookRecord := { company := some "<script>x</script>" }

/-- An INSERT webhook payload carrying the injection record. -/
def webhookScriptPayload : WebhookPayload := { type := some "INSERT", record := some scriptRecord }

/-! Helper lemmas shared by the claim theorems. -/

/-- A character absent from the replacement is absent from the output of
replacing that very character. -/
theorem not_mem_replaceAllChar_self {c : Char} {rep : List Char} (hrep : c ∉ rep) :
    ∀ cs : List Char, c ∉ replaceAllChar c rep cs := by
  intro cs
  induction cs with
  | nil => simp [replaceAllChar]
  | cons x xs ih =>
    by_cases hx : x = c
    · simp only [replaceAllChar, if_pos hx, List.mem_append]
      rintro (h | h)
      · exact hrep h
      · exact ih h
    · simp only [replaceAllChar, if_neg hx, List.mem_cons]
      rintro (h | h)
      · exact hx h.symm
      · exact ih h

/-- Replacing some other character neither removes nor introduces a
character absent from both the input and the replacement. -/
theorem not_mem_replaceAllChar_of {c p : Char} {rep : List Char} (hrep : c ∉ rep) :
    ∀ {cs : List Char}, c ∉ cs → c ∉ replaceAllChar p rep cs := by
  intro cs
  induction cs with
  | nil => intro _; simp [replaceAllChar]
  | cons x xs ih =>
    intro hcs
    have hx : c ≠ x := fun h => hcs (h ▸ List.mem_cons_self x xs)
    have hxs : c ∉ xs := fun h => hcs (List.mem_cons_of_mem x h)
    by_cases hpx : x = p
    · simp only [replaceAllChar, if_pos hpx, List.mem_append]
      rintro (h | h)
      · exact hrep h
      · exact ih hxs h
    · simp only [replaceAllChar, if_neg hpx, List.mem_cons]
      rintro (h | h)
      · exact hx h
      · exact ih hxs h

/-- The escapeHtml replacement chain never leaves a raw left angle bracket
in its output. -/
theorem escapeHtmlStr_no_lt (s : String) : '<' ∉ (escapeHtmlStr s).data := by
  unfold escapeHtmlStr
  exact not_mem_replaceAllChar_of (by decide)
    (not_mem_replaceAllChar_of (by decide)
      (not_mem_replaceAllChar_of (by decide)
        (not_mem_replaceAllChar_self (by decide) _)))

/-- The escapeHtml replacement chain never leaves a raw right angle bracket
in its output. -/
theorem escapeHtmlStr_no_gt (s : String) : '>' ∉ (escapeHtmlStr s).data := by
  unfold escapeHtmlStr
  exact not_mem_replaceAllChar_of (by decide)
    (not_mem_replaceAllChar_of (by decide)
      (not_mem_replaceAllChar_self (by decide) _))

/-- redirectToLogin with a nonempty message: the replace navigation to the
login page with the message persisted in sessionStorage. -/
theorem redirectToLogin_eff {m : String} (h : m ≠ "") :
    VIFMRouteGuards.redirectToLogin (some m) =
      { nav := some ⟨NavKind.replace, "login.html"⟩, loginMessage := some m,
        alertMessage := none, renderingStopped := true, renderingResumed := false,
        signedOut := false } := by
  simp [VIFMRouteGuards.redirectToLogin, jsTruthy, h]

/-- redirectToMainMenu with a nonempty message: the replace navigation to
the main menu with the message shown in an alert dialog. -/
theorem redirectToMainMenu_eff {m : String} (h : m ≠ "") :
    VIFMRouteGuards.redirectToMainMenu (some m) =
      { nav := some ⟨NavKind.replace, "vifm-main-menu.html"⟩, loginMessage := none,
        alertMessage := some m, renderingStopped := true, renderingResumed := false,
        signedOut := false } := by
  simp [VIFMRouteGuards.redirectToMainMenu, jsTruthy, h]

/-- The access-denied message is never the empty string. -/
theorem accessMsg_ne (s : String) :
    ("Access denied. This page requires " ++ s ++ " access.") ≠ "" := by
  intro h
  have h2 := congrArg String.data h
  simp [String.data_append] at h2

/-- Every outcome of requireAuthentication is either a success triple with
no side effects, or a denial whose effects are a login redirect carrying a
nonempty persisted message (with the expired case additionally signing
out). -/
theorem requireAuthentication_cases (env : GuardEnv) :
    (∃ t, VIFMRouteGuards.requireAuthentication env = ⟨some t, noEff⟩) ∨
    (∃ m, m ≠ "" ∧ (VIFMRouteGuards.requireAuthentication env).result = none ∧
      ((VIFMRouteGuards.requireAuthentication env).eff =
          VIFMRouteGuards.redirectToLogin (some m) ∨
        (VIFMRouteGuards.requireAuthentication env).eff =
          { VIFMRouteGuards.redirectToLogin (some m) with signedOut := true })) := by
  cases hava : env.authAvailable with
  | false =>
    refine Or.inr ⟨"Authentication error - please log in", by decide, ?_, Or.inl ?_⟩ <;>
      simp [VIFMRouteGuards.requireAuthentication, hava]
  | true =>
    cases hs : (Auth.getSession env.cuEnv.gs).session with
    | none =>
      refine Or.inr ⟨"Authentication required", by decide, ?_, Or.inl ?_⟩ <;>
        simp [VIFMRouteGuards.requireAuthentication, hava, hs]
    | some s =>
      cases he : s.expires_at with
      | none =>
        cases hcp : (Auth.getCurrentUser env.cuEnv).cu.profile with
        | none =>
          refine Or.inr ⟨"Profile not found", by decide, ?_, Or.inl ?_⟩ <;>
            simp [VIFMRouteGuards.requireAuthentication, hava, hs, he, hcp]
        | some p =>
          exact Or.inl ⟨⟨s, (Auth.getCurrentUser env.cuEnv).cu.user, p⟩,
            by simp [VIFMRouteGuards.requireAuthentication, hava, hs, he, hcp]⟩
      | some e =>
        by_cases hle : e * 1000 ≤ env.now
        · refine Or.inr ⟨"Session expired - please log in again", by decide, ?_, Or.inr ?_⟩ <;>
            simp [VIFMRouteGuards.requireAuthentication, hava, hs, he, hle]
        · cases hcp : (Auth.getCurrentUser env.cuEnv).cu.profile with
          | none =>
            refine Or.inr ⟨"Profile not found", by decide, ?_, Or.inl ?_⟩ <;>
              simp [VIFMRouteGuards.requireAuthentication, hava, hs, he, hle, hcp]
          | some p =>
            exact Or.inl ⟨⟨s, (Auth.getCurrentUser env.cuEnv).cu.user, p⟩,
              by simp [VIFMRouteGuards.requireAuthentication, hava, hs, he, hle, hcp]⟩

/-- When getSession returns a session it leaves the stored blob untouched. -/
theorem getSession_storedAfter_of_some {env : GetSessionEnv}
    (h : (Auth.getSession env).session ≠ none) :
    (Auth.getSession env).storedAfter = env.stored := by
  unfold Auth.getSession at h ⊢
  cases hc : env.clientSession with
  | some s => simp
  | none =>
    cases hst : env.stored with
    | none => simp [hc, hst] at h
    | some s =>
      cases he : s.expires_at with
      | none => simp [hc, hst, he]
      | some e =>
        by_cases hle : e ≤ env.now
        · simp [hc, hst, he, hle] at h
        · simp [hc, hst, he, hle]

/-- A getCurrentUser result with a user can only come from a session. -/
theorem getCurrentUser_user_some_session {env : GetCurrentUserEnv} {u : User}
    (h : (Auth.getCurrentUser env).cu.user = some u) :
    (Auth.getSession env.gs).session ≠ none := by
  intro hs
  unfold Auth.getCurrentUser at h
  rw [hs] at h
  simp at h

/-- Writing back the unchanged stored blob is the identity on the
pre-render environment. -/
theorem withStored_self (env : PreRenderEnv) :
    env.withStored env.cuEnv.gs.stored = env := by
  cases env with
  | mk el sl pn act cu =>
    cases cu with
    | mk gs ca dl sp =>
      cases gs with
      | mk cs st now => rfl

/-- When getCurrentUser yields a user, refreshing the stored blob from
getSession leaves the pre-render environment unchanged. -/
theorem withStored_storedAfter_of_user (env : PreRenderEnv) {u : User}
    (h : (Auth.getCurrentUser env.cuEnv).cu.user = some u) :
    env.withStored (Auth.getSession env.cuEnv.gs).storedAfter = env := by
  rw [getSession_storedAfter_of_some (getCurrentUser_user_some_session h)]
  exact withStored_self env

/-! Claim theorems. -/

/-- C3: a stored session whose expires_at timestamp is at or before the
current time is treated as absent at read time: with no live client session
to short-circuit, Auth.getSession returns null and removes the vifm_session
blob as a side effect. -/
theorem claim_C3_expired_stored_session (env : GetSessionEnv) (s : Session) (e : Nat)
    (hlive : env.clientSession = none) (hst : env.stored = some s)
    (he : s.expires_at = some e) (hexp : e ≤ env.now) :
    Auth.getSession env = ⟨none, none⟩ := by
  simp [Auth.getSession, hlive, hst, he, hexp]

/-- C3 witness: a session expired at 5 read at time 10 vanishes and clears
its stored copy. -/
theorem claim_C3_witness :
    Auth.getSession ⟨none, some ⟨some demoUser, some consultantProfile, some 5⟩, 10⟩ =
      ⟨none, none⟩ :=
  claim_C3_expired_stored_session _ ⟨some demoUser, some consultantProfile, some 5⟩ 5
    rfl rfl rfl (by decide)

/-- C5: Auth.getCurrentUser resolves the profile in order (embedded in the
session, then database lookup by email, then stored profile blob), returns
the null-null shape without attempting any lookup when the session has no
user, and degrades a throwing lookup to a null profile. -/
theorem claim_C5_profile_resolution_order (env : GetCurrentUserEnv) :
    ((Auth.getSession env.gs).session = none →
        Auth.getCurrentUser env = ⟨⟨none, none⟩, false⟩) ∧
    (∀ s, (Auth.getSession env.gs).session = some s → s.user = none →
        Auth.getCurrentUser env = ⟨⟨none, none⟩, false⟩) ∧
    (∀ s u p, (Auth.getSession env.gs).session = some s → s.user = some u →
        s.profile = some p → Auth.getCurrentUser env = ⟨⟨some u, some p⟩, false⟩) ∧
    (∀ s u q, (Auth.getSession env.gs).session = some s → s.user = some u →
        s.profile = none → env.clientAvailable = true → env.dbLookup = .found q →
        (Auth.getCurrentUser env).cu = ⟨some u, some q⟩) ∧
    (∀ s u, (Auth.getSession env.gs).session = some s → s.user = some u →
        s.profile = none → env.clientAvailable = true → env.dbLookup = .notFound →
        (Auth.getCurrentUser env).cu = ⟨some u, env.storedProfile⟩) ∧
    (∀ s u, (Auth.getSession env.gs).session = some s → s.user = some u →
        s.profile = none → env.clientAvailable = false →
        Auth.getCurrentUser env = ⟨⟨some u, env.storedProfile⟩, false⟩) ∧
    (∀ s u, (Auth.getSession env.gs).session = some s → s.user = some u →
        s.profile = none → env.clientAvailable = true → env.dbLookup = .throws →
        (Auth.getCurrentUser env).cu = ⟨some u, none⟩) := by
  refine ⟨?_, ?_, ?_, ?_, ?_, ?_, ?_⟩
  · intro hs; simp [Auth.getCurrentUser, hs]
  · intro s hs hu; simp [Auth.getCurrentUser, hs, hu]
  · intro s u p hs hu hp; simp [Auth.getCurrentUser, hs, hu, hp]
  · intro s u q hs hu hp hc hl; simp [Auth.getCurrentUser, hs, hu, hp, hc, hl]
  · intro s u hs hu hp hc hl; simp [Auth.getCurrentUser, hs, hu, hp, hc, hl]
  · intro s u hs hu hp hc; simp [Auth.getCurrentUser, hs, hu, hp, hc]
  · intro s u hs hu hp hc hl; simp [Auth.getCurrentUser, hs, hu, hp, hc, hl]

/-- C5 witness: with the profile embedded in the session, getCurrentUser
uses it and performs no lookup. -/
theorem claim_C5_witness :
    Auth.getCurrentUser demoCuEnv = ⟨⟨some demoUser, some consultantProfile⟩, false⟩ :=
  (claim_C5_profile_resolution_order demoCuEnv).2.2.1 liveSession demoUser
    consultantProfile rfl rfl rfl

/-- C10: with the client available, Database.insert throws User not
authenticated before sending any row when getSession yields no session
user, and for a table other than profiles a payload lacking created_by is
sent with created_by set to the authenticated user id. -/
theorem claim_C10_insert_authorship (env : GetCurrentUserEnv) (table : String)
    (data : InsertPayload) (hclient : env.clientAvailable = true) :
    (((Auth.getSession env.gs).session = none ∨
        ∃ s, (Auth.getSession env.gs).session = some s ∧ s.user = none) →
      Database.insert env table data = ⟨some "User not authenticated", none⟩) ∧
    (∀ s u, (Auth.getSession env.gs).session = some s → s.user = some u →
      data.created_by = none → table ≠ "profiles" →
      Database.insert env table data = ⟨none, some { data with created_by := some u.id }⟩) := by
  constructor
  · rintro (hs | ⟨s, hs, hu⟩)
    · simp [Database.insert, hclient, hs]
    · simp [Database.insert, hclient, hs, hu]
  · intro s u hs hu hcb htab
    have hcu : (Auth.getCurrentUser env).cu.user = some u := by
      unfold Auth.getCurrentUser
      rw [hs]
      cases hp : s.profile with
      | some p => simp [hu, hp]
      | none =>
        cases hca : env.clientAvailable with
        | false => simp [hu, hp, hca]
        | true => cases hl : env.dbLookup <;> simp [hu, hp, hca, hl]
    unfold Database.insert
    rw [hs]
    cases hcux : (Auth.getCurrentUser env).cu.user with
    | none => rw [hcux] at hcu; exact absurd hcu (by simp)
    | some v =>
      rw [hcux] at hcu
      simp only [Option.some.injEq] at hcu
      subst hcu
      simp [hclient, hu, hcb, htab, jsTruthy, hcux]

/-- C10 witness: an unauthored row inserted into opportunities is stamped
with the session user id. -/
theorem claim_C10_witness :
    Database.insert demoCuEnv "opportunities" {} =
      ⟨none, some { created_by := some demoUser.id, fields := [] }⟩ :=
  (claim_C10_insert_authorship demoCuEnv "opportunities" {} rfl).2 liveSession demoUser
    rfl rfl rfl (by decide)

/-- C1: in every implementation of the role check, an authenticated state
with a non-null profile is allowed when the role is admin (for any required
role) or equals the required role, and otherwise denied with the main-menu
page as the redirect target. -/
theorem claim_C1_role_check
    (cu : CurrentUser) (u : User) (p : Profile) (rr : String)
    (env : GuardEnv) (t : AuthTriple) (penv : PreRenderEnv)
    (hcuU : cu.user = some u) (hcuP : cu.profile = some p)
    (hauth : (VIFMRouteGuards.requireAuthentication env).result = some t)
    (htp : t.profile = p)
    (hdeps : penv.envLoaded = true) (hsup : penv.supabaseLoaded = true)
    (hpub : VIFMRouteGuards.PUBLIC_PAGES.contains (currentPageOf penv.pathname) = false)
    (hthrow : penv.authCallThrows = false)
    (hcu2 : (Auth.getCurrentUser penv.cuEnv).cu = cu)
    (hrr : rr ≠ "") :
    ((p.role = "admin" ∨ p.role = rr) →
        (RouteGuard.requireRole cu (some rr)).value = true ∧
        (VIFMRouteGuards.requireRole env (some rr)).value = true ∧
        (VIFMRouteGuards.executePreRenderSecurity penv (some rr)).value = true) ∧
    (p.role ≠ "admin" → p.role ≠ rr →
        ((RouteGuard.requireRole cu (some rr)).value = false ∧
          (RouteGuard.requireRole cu (some rr)).eff.nav =
            some ⟨NavKind.assign, "/vifm-main-menu.html"⟩) ∧
        ((VIFMRouteGuards.requireRole env (some rr)).value = false ∧
          (VIFMRouteGuards.requireRole env (some rr)).eff.nav =
            some ⟨NavKind.replace, "vifm-main-menu.html"⟩) ∧
        ((VIFMRouteGuards.executePreRenderSecurity penv (some rr)).value = false ∧
          (VIFMRouteGuards.executePreRenderSecurity penv (some rr)).eff.nav =
            some ⟨NavKind.replace, "vifm-main-menu.html"⟩)) := by
  obtain ⟨cuU, cuP⟩ := cu
  simp only at hcuU hcuP
  subst hcuU hcuP
  rcases hra : VIFMRouteGuards.requireAuthentication env with ⟨res, eff⟩
  rw [hra] at hauth
  simp only at hauth
  subst hauth
  have hpub' : currentPageOf penv.pathname ∉ VIFMRouteGuards.PUBLIC_PAGES := by
    simpa using hpub
  constructor
  · rintro (h | h)
    · refine ⟨?_, ?_, ?_⟩
      · simp [RouteGuard.requireRole, h]
      · simp [VIFMRouteGuards.requireRole, hra, htp, h]
      · simp [VIFMRouteGuards.executePreRenderSecurity, hdeps, hsup, hpub', hthrow,
          hcu2, hrr, h]
    · refine ⟨?_, ?_, ?_⟩
      · simp [RouteGuard.requireRole, jsEqOpt, h]
      · by_cases hadm : p.role = "admin"
        · simp [VIFMRouteGuards.requireRole, hra, htp, hadm]
        · simp [VIFMRouteGuards.requireRole, hra, htp, hadm, jsEqOpt, h]
      · simp [VIFMRouteGuards.executePreRenderSecurity, hdeps, hsup, hpub', hthrow,
          hcu2, hrr, h]
  · intro hadm hne
    refine ⟨⟨?_, ?_⟩, ⟨?_, ?_⟩, ⟨?_, ?_⟩⟩
    · simp [RouteGuard.requireRole, jsEqOpt, hadm, hne]
    · simp [RouteGuard.requireRole, jsEqOpt, hadm, hne]
    · simp [VIFMRouteGuards.requireRole, hra, htp, hadm, jsEqOpt, hne,
        VIFMRouteGuards.redirectToMainMenu]
    · simp [VIFMRouteGuards.requireRole, hra, htp, hadm, jsEqOpt, hne,
        VIFMRouteGuards.redirectToMainMenu]
    · simp [VIFMRouteGuards.executePreRenderSecurity, hdeps, hsup, hpub', hthrow,
        hcu2, hrr, hadm, hne]
    · simp [VIFMRouteGuards.executePreRenderSecurity, hdeps, hsup, hpub', hthrow,
        hcu2, hrr, hadm, hne, VIFMRouteGuards.redirectToMainMenu]

/-- C1 witness: a consultant passes every role check for the consultant
required role. -/
theorem claim_C1_witness :
    (RouteGuard.requireRole consultantCU (some "consultant")).value = true ∧
    (VIFMRouteGuards.requireRole demoGuardEnv (some "consultant")).value = true ∧
    (VIFMRouteGuards.executePreRenderSecurity demoPreEnv (some "consultant")).value = true :=
  (claim_C1_role_check consultantCU demoUser consultantProfile "consultant"
    demoGuardEnv ⟨liveSession, some demoUser, consultantProfile⟩ demoPreEnv
    rfl rfl (by decide) rfl rfl rfl (by decide) rfl rfl (by decide)).1 (Or.inr rfl)

/-- C2 counterexample: with requiredRole unset, RouteGuard.requireRole in
supabase.js denies an authenticated consultant (its strict inequality
against the unset value is always true for a non-admin role) and sends the
page to the main menu, where the claim demands ALLOW. -/
theorem claim_C2_counterexample :
    (RouteGuard.requireRole consultantCU none).value = false ∧
    (RouteGuard.requireRole consultantCU none).eff.nav =
      some ⟨NavKind.assign, "/vifm-main-menu.html"⟩ := by
  constructor <;> rfl

/-- C2 (amended): with requiredRole unset, executePreRenderSecurity allows
any authenticated user with a profile (authentication alone suffices), but
RouteGuard.requireRole in supabase.js allows only admin profiles, denying
every other role to the main menu. -/
theorem claim_C2_unset_required_role
    (cu : CurrentUser) (u : User) (p : Profile) (penv : PreRenderEnv)
    (hcuU : cu.user = some u) (hcuP : cu.profile = some p)
    (hdeps : penv.envLoaded = true) (hsup : penv.supabaseLoaded = true)
    (hpub : VIFMRouteGuards.PUBLIC_PAGES.contains (currentPageOf penv.pathname) = false)
    (hthrow : penv.authCallThrows = false)
    (hcu2 : (Auth.getCurrentUser penv.cuEnv).cu = cu) :
    (VIFMRouteGuards.executePreRenderSecurity penv none).value = true ∧
    ((RouteGuard.requireRole cu none).value = true ↔ p.role = "admin") ∧
    (p.role ≠ "admin" →
      (RouteGuard.requireRole cu none).eff.nav =
        some ⟨NavKind.assign, "/vifm-main-menu.html"⟩) := by
  obtain ⟨cuU, cuP⟩ := cu
  simp only at hcuU hcuP
  subst hcuU hcuP
  have hpub' : currentPageOf penv.pathname ∉ VIFMRouteGuards.PUBLIC_PAGES := by
    simpa using hpub
  refine ⟨?_, ?_, ?_⟩
  · simp [VIFMRouteGuards.executePreRenderSecurity, hdeps, hsup, hpub', hthrow, hcu2]
  · by_cases hadm : p.role = "admin" <;>
      simp [RouteGuard.requireRole, jsEqOpt, hadm]
  · intro hadm
    simp [RouteGuard.requireRole, jsEqOpt, hadm]

/-- C2 witness: an authenticated consultant with no required role passes
the pre-render guard, while the supabase.js role check denies it. -/
theorem claim_C2_witness :
    (VIFMRouteGuards.executePreRenderSecurity demoPreEnv none).value = true ∧
    ((RouteGuard.requireRole consultantCU none).value = true ↔
      consultantProfile.role = "admin") ∧
    (consultantProfile.role ≠ "admin" →
      (RouteGuard.requireRole consultantCU none).eff.nav =
        some ⟨NavKind.assign, "/vifm-main-menu.html"⟩) :=
  claim_C2_unset_required_role consultantCU demoUser consultantProfile demoPreEnv
    rfl rfl rfl rfl (by decide) rfl rfl

/-- C4: every error thrown during the pre-render guard sequence, including
the dependency polling timing out and a throwing auth lookup, is treated as
a denial: the page is replace-redirected to login with the reason System
error, the return value is false, and rendering is never resumed. -/
theorem claim_C4_fail_closed (penv : PreRenderEnv) (rr : Option String)
    (herr : (penv.envLoaded && penv.supabaseLoaded) = false ∨
      (VIFMRouteGuards.PUBLIC_PAGES.contains (currentPageOf penv.pathname) = false ∧
        penv.authCallThrows = true)) :
    (VIFMRouteGuards.executePreRenderSecurity penv rr).value = false ∧
    (VIFMRouteGuards.executePreRenderSecurity penv rr).eff.nav =
      some ⟨NavKind.replace, "login.html"⟩ ∧
    (VIFMRouteGuards.executePreRenderSecurity penv rr).eff.loginMessage =
      some "System error" ∧
    (VIFMRouteGuards.executePreRenderSecurity penv rr).eff.renderingResumed = false := by
  rcases herr with h | ⟨hpub, hthrow⟩
  · simp [VIFMRouteGuards.executePreRenderSecurity, h,
      VIFMRouteGuards.redirectToLogin, jsTruthy]
  · have hpub' : currentPageOf penv.pathname ∉ VIFMRouteGuards.PUBLIC_PAGES := by
      simpa using hpub
    by_cases hd : (penv.envLoaded && penv.supabaseLoaded) = true
    · simp [VIFMRouteGuards.executePreRenderSecurity, hd, hpub', hthrow,
        VIFMRouteGuards.redirectToLogin, jsTruthy]
    · simp only [Bool.not_eq_true] at hd
      simp [VIFMRouteGuards.executePreRenderSecurity, hd,
        VIFMRouteGuards.redirectToLogin, jsTruthy]

/-- C4 witness: a dependency-polling timeout denies with System error. -/
theorem claim_C4_witness :
    (VIFMRouteGuards.executePreRenderSecurity failingPreEnv none).value = false ∧
    (VIFMRouteGuards.executePreRenderSecurity failingPreEnv none).eff.nav =
      some ⟨NavKind.replace, "login.html"⟩ ∧
    (VIFMRouteGuards.executePreRenderSecurity failingPreEnv none).eff.loginMessage =
      some "System error" ∧
    (VIFMRouteGuards.executePreRenderSecurity failingPreEnv none).eff.renderingResumed =
      false :=
  claim_C4_fail_closed failingPreEnv none (Or.inl rfl)

/-- On every allow outcome the pre-render guard leaves the persistent guard
state unchanged. -/
theorem exec_stateAfter_of_allow (penv : PreRenderEnv) (rr : Option String)
    (h : (VIFMRouteGuards.executePreRenderSecurity penv rr).value = true) :
    (VIFMRouteGuards.executePreRenderSecurity penv rr).stateAfter = penv := by
  cases hd : (!(penv.envLoaded && penv.supabaseLoaded)) with
  | true => simp [VIFMRouteGuards.executePreRenderSecurity, hd]
  | false =>
    cases hp : VIFMRouteGuards.PUBLIC_PAGES.contains (currentPageOf penv.pathname) with
    | true =>
      have hp' : currentPageOf penv.pathname ∈ VIFMRouteGuards.PUBLIC_PAGES := by
        simpa using hp
      simp [VIFMRouteGuards.executePreRenderSecurity, hd, hp']
    | false =>
      have hp' : currentPageOf penv.pathname ∉ VIFMRouteGuards.PUBLIC_PAGES := by
        simpa using hp
      cases ht : penv.authCallThrows with
      | true => simp [VIFMRouteGuards.executePreRenderSecurity, hd, hp', ht]
      | false =>
        unfold VIFMRouteGuards.executePreRenderSecurity at h ⊢
        simp only [hd, hp, ht, Bool.false_eq_true, if_false] at h ⊢
        rcases hgc : Auth.getCurrentUser penv.cuEnv with ⟨⟨cuU, cuP⟩, la⟩
        rw [hgc] at h
        cases cuU with
        | none => cases cuP <;> simp at h
        | some u =>
          cases cuP with
          | none => simp at h
          | some p =>
            have hst : penv.withStored (Auth.getSession penv.cuEnv.gs).storedAfter = penv :=
              @withStored_storedAfter_of_user penv u (by rw [hgc])
            cases rr with
            | none => simpa using hst
            | some r =>
              by_cases hr : r = ""
              · simpa [hr] using hst
              · cases hrole : (p.role == r || p.role == "admin") with
                | true => simpa [hr, hrole] using hst
                | false => simp [hr, hrole] at h

/-- C9: the pre-render guard is idempotent on an allowed state: when one
invocation returns true without redirecting, a second invocation on the
resulting state also returns true and issues no redirect. -/
theorem claim_C9_idempotent_allow (penv : PreRenderEnv) (rr : Option String)
    (hval : (VIFMRouteGuards.executePreRenderSecurity penv rr).value = true)
    (hnav : (VIFMRouteGuards.executePreRenderSecurity penv rr).eff.nav = none) :
    (VIFMRouteGuards.executePreRenderSecurity
      (VIFMRouteGuards.executePreRenderSecurity penv rr).stateAfter rr).value = true ∧
    (VIFMRouteGuards.executePreRenderSecurity
      (VIFMRouteGuards.executePreRenderSecurity penv rr).stateAfter rr).eff.nav = none := by
  rw [exec_stateAfter_of_allow penv rr hval]
  exact ⟨hval, hnav⟩

/-- C9 witness: the demo allow state stays allowed on a repeated check. -/
theorem claim_C9_witness :
    (VIFMRouteGuards.executePreRenderSecurity
      (VIFMRouteGuards.executePreRenderSecurity demoPreEnv none).stateAfter none).value =
        true ∧
    (VIFMRouteGuards.executePreRenderSecurity
      (VIFMRouteGuards.executePreRenderSecurity demoPreEnv none).stateAfter none).eff.nav =
        none :=
  claim_C9_idempotent_allow demoPreEnv none (by decide) (by decide)

/-- C7 counterexample: the role-mismatch denial of RouteGuard.requireRole
in supabase.js navigates by assigning location.href, which pushes a history
entry rather than replacing it, and persists no reason for the destination
page — against the claim that every denial path replace-navigates after
persisting a reason. -/
theorem claim_C7_counterexample :
    (RouteGuard.requireRole consultantCU (some "admin")).value = false ∧
    (RouteGuard.requireRole consultantCU (some "admin")).eff.nav =
      some ⟨NavKind.assign, "/vifm-main-menu.html"⟩ ∧
    NavKind.assign ≠ NavKind.replace ∧
    (RouteGuard.requireRole consultantCU (some "admin")).eff.loginMessage = none ∧
    (RouteGuard.requireRole consultantCU (some "admin")).eff.alertMessage = none := by
  refine ⟨rfl, rfl, by decide, rfl, rfl⟩

/-- C7 (amended): every DENY in the route-guards.js guards navigates with a
history-replacing redirect — login-bound denials persisting a nonempty
reason in sessionStorage, main-menu-bound denials surfacing the reason in
an alert dialog instead — while the RouteGuard.requireAuth and
RouteGuard.requireRole paths in supabase.js navigate by assigning
location.href (a pushing navigation) and persist no reason. -/
theorem claim_C7_deny_navigation (env : GuardEnv) (rr : Option String)
    (penv : PreRenderEnv) (cu : CurrentUser) (session : Option Session) :
    ((VIFMRouteGuards.requireAuthentication env).result = none →
      (VIFMRouteGuards.requireAuthentication env).eff.nav =
        some ⟨NavKind.replace, "login.html"⟩ ∧
      (VIFMRouteGuards.requireAuthentication env).eff.loginMessage.isSome = true) ∧
    ((VIFMRouteGuards.requireRole env rr).value = false →
      ((VIFMRouteGuards.requireRole env rr).eff.nav =
          some ⟨NavKind.replace, "login.html"⟩ ∧
        (VIFMRouteGuards.requireRole env rr).eff.loginMessage.isSome = true) ∨
      ((VIFMRouteGuards.requireRole env rr).eff.nav =
          some ⟨NavKind.replace, "vifm-main-menu.html"⟩ ∧
        (VIFMRouteGuards.requireRole env rr).eff.alertMessage.isSome = true)) ∧
    ((VIFMRouteGuards.executePreRenderSecurity penv rr).value = false →
      ((VIFMRouteGuards.executePreRenderSecurity penv rr).eff.nav =
          some ⟨NavKind.replace, "login.html"⟩ ∧
        (VIFMRouteGuards.executePreRenderSecurity penv rr).eff.loginMessage.isSome = true) ∨
      ((VIFMRouteGuards.executePreRenderSecurity penv rr).eff.nav =
          some ⟨NavKind.replace, "vifm-main-menu.html"⟩ ∧
        (VIFMRouteGuards.executePreRenderSecurity penv rr).eff.alertMessage.isSome = true)) ∧
    ((RouteGuard.requireAuth session).value = false →
      (RouteGuard.requireAuth session).eff.nav = some ⟨NavKind.assign, "/login.html"⟩ ∧
      (RouteGuard.requireAuth session).eff.loginMessage = none ∧
      (RouteGuard.requireAuth session).eff.alertMessage = none) ∧
    ((RouteGuard.requireRole cu rr).value = false →
      ∃ tgt, (RouteGuard.requireRole cu rr).eff.nav = some ⟨NavKind.assign, tgt⟩ ∧
        (RouteGuard.requireRole cu rr).eff.loginMessage = none ∧
        (RouteGuard.requireRole cu rr).eff.alertMessage = none) := by
  refine ⟨?_, ?_, ?_, ?_, ?_⟩
  · intro h1
    rcases requireAuthentication_cases env with ⟨t, heq⟩ | ⟨m, hm, _, hor⟩
    · rw [heq] at h1; simp at h1
    · rcases hor with heff | heff <;>
        rw [heff, redirectToLogin_eff hm] <;> exact ⟨rfl, rfl⟩
  · intro h2
    rcases requireAuthentication_cases env with ⟨t, heq⟩ | ⟨m, hm, hres, hor⟩
    · by_cases hadm : t.profile.role = "admin"
      · simp [VIFMRouteGuards.requireRole, heq, hadm] at h2
      · by_cases hjs : jsEqOpt t.profile.role rr = true
        · simp [VIFMRouteGuards.requireRole, heq, hadm, hjs] at h2
        · right
          have hmsg := accessMsg_ne (jsToString rr)
          simp [VIFMRouteGuards.requireRole, heq, hadm, hjs,
            redirectToMainMenu_eff hmsg]
    · rcases hra : VIFMRouteGuards.requireAuthentication env with ⟨res, eff⟩
      rw [hra] at hres hor
      simp only at hres
      subst hres
      left
      rcases hor with heff | heff <;> simp only at heff <;>
        simp [VIFMRouteGuards.requireRole, hra, heff, redirectToLogin_eff hm]
  · intro h3
    cases hd : (!(penv.envLoaded && penv.supabaseLoaded)) with
    | true =>
      left
      simp [VIFMRouteGuards.executePreRenderSecurity, hd,
        redirectToLogin_eff (show ("System error" : String) ≠ "" by decide)]
    | false =>
      cases hp : VIFMRouteGuards.PUBLIC_PAGES.contains (currentPageOf penv.pathname) with
      | true =>
        have hp' : currentPageOf penv.pathname ∈ VIFMRouteGuards.PUBLIC_PAGES := by
          simpa using hp
        simp [VIFMRouteGuards.executePreRenderSecurity, hd, hp'] at h3
      | false =>
        have hp' : currentPageOf penv.pathname ∉ VIFMRouteGuards.PUBLIC_PAGES := by
          simpa using hp
        cases ht : penv.authCallThrows with
        | true =>
          left
          simp [VIFMRouteGuards.executePreRenderSecurity, hd, hp', ht,
            redirectToLogin_eff (show ("System error" : String) ≠ "" by decide)]
        | false =>
          unfold VIFMRouteGuards.executePreRenderSecurity at h3 ⊢
          simp only [hd, hp, ht, Bool.false_eq_true, if_false] at h3 ⊢
          rcases hgc : Auth.getCurrentUser penv.cuEnv with ⟨⟨cuU, cuP⟩, la⟩
          rw [hgc] at h3
          cases cuU with
          | none =>
            cases cuP <;>
              (left;
               simp [redirectToLogin_eff (show ("Authentication required" : String) ≠ "" by decide)])
          | some u =>
            cases cuP with
            | none =>
              left
              simp [redirectToLogin_eff (show ("Authentication required" : String) ≠ "" by decide)]
            | some p =>
              cases rr with
              | none => simp at h3
              | some r =>
                by_cases hr : r = ""
                · simp [hr] at h3
                · cases hrole : (p.role == r || p.role == "admin") with
                  | true => simp [hr, hrole] at h3
                  | false =>
                    right
                    simp [hr, hrole, VIFMRouteGuards.redirectToMainMenu]
  · intro h4
    cases session with
    | none => exact ⟨rfl, rfl, rfl⟩
    | some s =>
      cases hu : s.user with
      | none => simp [RouteGuard.requireAuth, hu]
      | some u => simp [RouteGuard.requireAuth, hu] at h4
  · intro h5
    rcases cu with ⟨cuU, cuP⟩
    cases cuU with
    | none => exact ⟨"/login.html", rfl, rfl, rfl⟩
    | some u =>
      cases cuP with
      | none => exact ⟨"/login.html", rfl, rfl, rfl⟩
      | some p =>
        by_cases hcond : (!(jsEqOpt p.role rr) && !(p.role == "admin")) = true
        · refine ⟨"/vifm-main-menu.html", ?_, ?_, ?_⟩ <;>
            simp [RouteGuard.requireRole, hcond]
        · simp [RouteGuard.requireRole, hcond] at h5

/-- C7 witness: with the auth system unavailable, requireAuthentication
replace-redirects to login with a persisted reason. -/
theorem claim_C7_witness :
    (VIFMRouteGuards.requireAuthentication noAuthGuardEnv).eff.nav =
      some ⟨NavKind.replace, "login.html"⟩ ∧
    (VIFMRouteGuards.requireAuthentication noAuthGuardEnv).eff.loginMessage.isSome = true :=
  (claim_C7_deny_navigation noAuthGuardEnv none demoPreEnv consultantCU none).1 (by decide)

/-- C6 counterexample: the webhook path composes the email from raw record
fields, so an INSERT payload whose company is a script tag yields an email
body containing the raw markup — against the claim that every path escapes
free-text fields before embedding them. -/
theorem claim_C6_counterexample :
    (postSupabaseWebhook webhookScriptPayload).emailData =
      some (webhookActivityData webhookScriptPayload.table scriptRecord) ∧
    containsSub (emailBody (webhookActivityData webhookScriptPayload.table scriptRecord))
      "<script>x</script>" = true := by
  refine ⟨rfl, by decide⟩

/-- C6 (amended): the authenticated notify-activity path escapes every
free-text field via escapeHtml before the email body is composed — the
escaped output never contains an angle bracket, the script-tag company
renders as its escaped form inside the body, and the body of the sanitized
message never contains the raw script opening — while the webhook path
embeds raw record fields (its counterexample). -/
theorem claim_C6_notify_escapes (u : User) (d : ActivityData) (b : Bool)
    (hc : jsTruthy d.company = true) :
    (postNotifyActivity ⟨some u, some d, b⟩).queued = some (sanitizeActivityData d) ∧
    (∀ s : String, '<' ∉ (escapeHtmlStr s).data ∧ '>' ∉ (escapeHtmlStr s).data) ∧
    escapeHtmlStr "<script>x</script>" = "&lt;script&gt;x&lt;/script&gt;" ∧
    containsSub (emailBody (sanitizeActivityData dScript))
      "&lt;script&gt;x&lt;/script&gt;" = true ∧
    containsSub (emailBody (sanitizeActivityData dScript)) "<script" = false := by
  refine ⟨?_, fun s => ⟨escapeHtmlStr_no_lt s, escapeHtmlStr_no_gt s⟩,
    by decide, by decide, by decide⟩
  simp [postNotifyActivity, hc]

/-- C6 witness: a concrete authenticated notify request queues the
escaped copy of its activity data. -/
theorem claim_C6_witness :
    (postNotifyActivity ⟨some demoUser, some dScript, true⟩).queued =
      some (sanitizeActivityData dScript) :=
  (claim_C6_notify_escapes demoUser dScript true (by decide)).1

/-- C8: POST /api/notify-activity responds 401 when the bearer token fails
verification, 400 when the body or its company field is absent, and 200
with the sanitized email queued when authenticated with a company present —
and the response is independent of the background delivery outcome, which
is never awaited. -/
theorem claim_C8_notify_statuses (env : NotifyEnv) :
    (env.authUser = none → postNotifyActivity env = ⟨401, none⟩) ∧
    (∀ u, env.authUser = some u → env.body = none →
      postNotifyActivity env = ⟨400, none⟩) ∧
    (∀ u d, env.authUser = some u → env.body = some d → jsTruthy d.company = false →
      postNotifyActivity env = ⟨400, none⟩) ∧
    (∀ u d, env.authUser = some u → env.body = some d → jsTruthy d.company = true →
      postNotifyActivity env = ⟨200, some (sanitizeActivityData d)⟩) ∧
    (∀ b, postNotifyActivity ⟨env.authUser, env.body, b⟩ = postNotifyActivity env) := by
  refine ⟨?_, ?_, ?_, ?_, ?_⟩
  · intro h; simp [postNotifyActivity, h]
  · intro u hu hb; simp [postNotifyActivity, hu, hb]
  · intro u d hu hb hc; simp [postNotifyActivity, hu, hb, hc]
  · intro u d hu hb hc; simp [postNotifyActivity, hu, hb, hc]
  · intro b; rcases env with ⟨a, bd, ok⟩; rfl

/-- C8 witness: a well-formed authenticated request is answered 200 with
the sanitized data queued. -/
theorem claim_C8_witness :
    postNotifyActivity ⟨some demoUser, some dScript, true⟩ =
      ⟨200, some (sanitizeActivityData dScript)⟩ :=
  (claim_C8_notify_statuses ⟨some demoUser, some dScript, true⟩).2.2.2.1 demoUser dScript
    rfl rfl (by decide)

end VIFM
